import Mathlib

/-!
# pg_autoctl service control commands (`src/bin/pg_autoctl/cli_service.c`)

A shallow embedding of the `stop`, `reload`, `status` and `restart` commands.
Every function of `cli_service.c` becomes a Lean function from the answers of
its collaborators (pid file reader, `kill`, service locator, Postgres probes)
to the way the invocation ends and the ordered list of what it did.
-/

namespace PgAutoctl

/-! ## Constants -/

/-- Signal number of `SIGHUP` in `<signal.h>`. -/
abbrev SIGHUP : Int := 1

/-- Signal number of `SIGINT` in `<signal.h>`. -/
abbrev SIGINT : Int := 2

/-- Signal number of `SIGQUIT` in `<signal.h>`. -/
abbrev SIGQUIT : Int := 3

/-- Signal number of `SIGTERM` in `<signal.h>`. -/
abbrev SIGTERM : Int := 15

/-- Size of a PostgreSQL path buffer (`MAXPGPATH`). -/
abbrev MAXPGPATH : Nat := 1024

/-- Modelled from the spec: the exit-code classes of `defaults.h`, which is not
part of the sources at hand. The spec lists the classes success, bad-arguments,
bad-config, bad-state, pgctl/readiness failure and internal error, and leaves
the numeric values open; `EXIT_CODE_QUIT` is the success class. -/
inductive ExitCode where
  | EXIT_CODE_QUIT
  | EXIT_CODE_BAD_ARGS
  | EXIT_CODE_BAD_CONFIG
  | EXIT_CODE_BAD_STATE
  | EXIT_CODE_PGCTL
  | EXIT_CODE_INTERNAL_ERROR
  deriving DecidableEq, Repr

open ExitCode

/-- Modelled from the spec: an exit code belongs to the success class exactly
when it is `EXIT_CODE_QUIT`; all the other classes of `defaults.h` (not part of
the sources at hand) are failure classes, reported as a non-zero status. -/
def ExitCode.isSuccess : ExitCode → Bool
  | .EXIT_CODE_QUIT => true
  | _ => false

/-- Levels of the logging calls used in `cli_service.c`. -/
inductive LogLevel where
  | LOG_TRACE
  | LOG_DEBUG
  | LOG_INFO
  | LOG_ERROR
  | LOG_FATAL
  deriving DecidableEq, Repr

open LogLevel

/-- Argument of a printf-style call. `uninit` is the indeterminate value of a
C variable that was never assigned. -/
inductive Arg where
  | str (s : String)
  | int (n : Int)
  | strsignal (sig : Int)
  | uninit
  deriving DecidableEq, Repr

/-- Everything an invocation does that can be observed from outside, and every
call it makes to a collaborator, with the answer it got. -/
inductive Event where
  | log (level : LogLevel) (fmt : String) (args : List Arg)
  | log_set_level (level : LogLevel)
  | commandline_help
  | stdout (fmt : String) (args : List Arg)
  | kill (pid : Int) (sig : Int) (ret : Int)
  | cli_common_pgsetup_init (ok : Bool)
  | file_exists (ok : Bool)
  | read_pidfile (pid : Option Int)
  | read_file (contents : Option String)
  | pg_setup_is_running (ok : Bool)
  | pg_setup_is_ready (ok : Bool)
  | pg_setup_as_json (ok : Bool)
  | cli_pprint_json (pid : Int)
  | supervisor_find_service_pid (serviceName : String) (pid : Option Int)
  | pg_usleep (usec : Nat)
  deriving DecidableEq, Repr

/-- How an invocation ends: the function returns to its caller, the process
calls `exit`, or (restart only) the scripted answers of the service locator
run out while the function is still waiting for one. -/
inductive Outcome where
  | returned
  | exit (code : ExitCode)
  | pending
  deriving DecidableEq, Repr

/-- Result of running one command function. -/
structure Run where
  outcome : Outcome
  trace : List Event
  deriving DecidableEq, Repr

/-- The collaborators of `cli_service.c`, none of which is defined in that
file. Each field is the answer the collaborator gives during one invocation. -/
structure Env where
  /-- The path `pathnames.pid` of the registry (pid) file. -/
  pathnames_pid : String
  /-- The field `pgSetup->pgdata`. -/
  pgdata : String
  /-- The field `pgSetup->pgport`. -/
  pgport : Int
  /-- The field `pgSetup->pidFile.pid`. -/
  pidFile_pid : Int
  /-- Whether `cli_common_pgsetup_init` succeeds. -/
  cli_common_pgsetup_init : Bool
  /-- Whether `file_exists(pathnames.pid)` holds. -/
  file_exists : Bool
  /-- The pid read by `read_pidfile`, `none` when it returns false. -/
  read_pidfile : Option Int
  /-- The contents read by `read_file`, `none` when it returns false. -/
  read_file : Option String
  /-- The lines `splitLines` stores for some contents and array size. -/
  splitLines : String → Nat → List String
  /-- The number `stringToInt` parses, `none` when it returns false. -/
  stringToInt : String → Option Int
  /-- The return value of `kill(pid, sig)`: zero when the call succeeds. -/
  kill : Int → Int → Int
  /-- The answer of `pg_setup_is_running`. -/
  pg_setup_is_running : Bool
  /-- The answer of `pg_setup_is_ready`. -/
  pg_setup_is_ready : Bool
  /-- The global flag `outputJSON`. -/
  outputJSON : Bool
  /-- Whether `pg_setup_as_json` succeeds. -/
  pg_setup_as_json : Bool
  /-- The successive answers of `supervisor_find_service_pid`, in call order;
  `none` when it returns false. -/
  supervisor_find_service_pid : List (Option Int)
  /-- The exit code `keeper_cli_print_version` ends the process with, `none`
  if it were to return. -/
  keeper_cli_print_version : Option ExitCode
  /-- The exit code `prepare_keeper_options` ends the process with for a given
  pgdata, `none` when it returns. -/
  prepare_keeper_options : String → Option ExitCode
  /-- The array size `BUFSIZE` of `defaults.h`. -/
  BUFSIZE : Nat

/-! ## Reading a trace -/

/-- The `kill` calls of a trace, as (pid, signal) pairs in call order. -/
def kills : List Event → List (Int × Int)
  | [] => []
  | .kill pid sig _ :: t => (pid, sig) :: kills t
  | _ :: t => kills t

/-- The logging calls of a trace, in call order. -/
def logs : List Event → List (LogLevel × String × List Arg)
  | [] => []
  | .log level fmt args :: t => (level, fmt, args) :: logs t
  | _ :: t => logs t

/-- What a trace writes to standard output, in call order. -/
def stdoutWrites : List Event → List (String × List Arg)
  | [] => []
  | .stdout fmt args :: t => (fmt, args) :: stdoutWrites t
  | _ :: t => stdoutWrites t

/-- The answers the service locator gave in a trace, in call order. -/
def lookups : List Event → List (Option Int)
  | [] => []
  | .supervisor_find_service_pid _ pid :: t => pid :: lookups t
  | _ :: t => lookups t

/-- The answers `pg_setup_is_ready` gave in a trace. -/
def readinessQueries : List Event → List Bool
  | [] => []
  | .pg_setup_is_ready ok :: t => ok :: readinessQueries t
  | _ :: t => readinessQueries t

/-! ## `cli_getopt_pgdata_and_mode` (lines 274-391) -/

/-- The value `c` that `getopt_long` hands to the `switch` for the option
string `"D:fiVvqh"` and the long options table of lines 281-290: one of the
seven declared options, or `'?'` for anything else (`unknown`). -/
inductive GetoptResult where
  | D (optarg : String)
  | f
  | i
  | V
  | v
  | q
  | h
  | unknown
  deriving DecidableEq, Repr

/-- Whether an option is one of the two stop-mode flags. -/
def GetoptResult.isStopMode : GetoptResult → Bool
  | .f => true
  | .i => true
  | _ => false

/-- The variables the option loop reads and writes: the file-level
`stop_signal`, `options.pgSetup.pgdata`, `verboseCount`, and what was logged. -/
structure ParseState where
  stop_signal : Int
  pgdata : String
  verboseCount : Nat
  trace : List Event
  deriving DecidableEq, Repr

/-- Result of one round of the `switch`. -/
inductive StepResult where
  | exit (code : ExitCode) (trace : List Event)
  | next (st : ParseState)
  deriving DecidableEq, Repr

/-- Result of `cli_getopt_pgdata_and_mode`. -/
inductive ParseResult where
  | exit (code : ExitCode) (trace : List Event)
  | returned (st : ParseState)
  deriving DecidableEq, Repr

/-- The log level chosen by the inner `switch (verboseCount)`. -/
def verboseLevel : Nat → LogLevel
  | 1 => LOG_INFO
  | 2 => LOG_DEBUG
  | _ => LOG_TRACE

/-- The body of the `switch (c)` of lines 297-382. -/
def getopt_case (env : Env) (st : ParseState) : GetoptResult → StepResult
  | .D optarg =>
    let pgdata := optarg.take (MAXPGPATH - 1)
    .next { st with
      pgdata := pgdata
      trace := st.trace ++ [.log LOG_TRACE "--pgdata %s" [.str pgdata]] }
  | .f =>
    if st.stop_signal ≠ SIGTERM then
      .exit EXIT_CODE_BAD_ARGS
        (st.trace ++
          [.log LOG_FATAL "Please use either --fast or --immediate, not both" []])
    else
      .next { st with stop_signal := SIGINT }
  | .i =>
    if st.stop_signal ≠ SIGTERM then
      .exit EXIT_CODE_BAD_ARGS
        (st.trace ++
          [.log LOG_FATAL "Please use either --fast or --immediate, not both" []])
    else
      .next { st with stop_signal := SIGQUIT }
  | .V =>
    match env.keeper_cli_print_version with
    | some code => .exit code st.trace
    | none => .next st
  | .v =>
    let verboseCount := st.verboseCount + 1
    .next { st with
      verboseCount := verboseCount
      trace := st.trace ++ [.log_set_level (verboseLevel verboseCount)] }
  | .q => .next { st with trace := st.trace ++ [.log_set_level LOG_ERROR] }
  | .h => .exit EXIT_CODE_QUIT (st.trace ++ [.commandline_help])
  | .unknown => .exit EXIT_CODE_BAD_ARGS (st.trace ++ [.commandline_help])

/-- The `while ((c = getopt_long(...)) != -1)` loop of lines 294-383, over the
successive values of `c`. -/
def getopt_loop (env : Env) : ParseState → List GetoptResult → ParseResult
  | st, [] => .returned st
  | st, c :: rest =>
    match getopt_case env st c with
    | .exit code trace => .exit code trace
    | .next st1 => getopt_loop env st1 rest

/-- The variables on entry of `cli_getopt_pgdata_and_mode`: `options` is
zeroed, `verboseCount` is 0, nothing was logged, and the file-level
`stop_signal` has the given value (`SIGTERM` when the process starts). -/
def entryState (stop_signal : Int) : ParseState :=
  { stop_signal := stop_signal, pgdata := "", verboseCount := 0, trace := [] }

/-- The function `cli_getopt_pgdata_and_mode`: the loop runs from the entry
state, then `prepare_keeper_options` is called. The first argument after
`env` is the value of the file-level `stop_signal` on entry. -/
def cli_getopt_pgdata_and_mode (env : Env) (stop_signal : Int)
    (opts : List GetoptResult) : ParseResult :=
  match getopt_loop env (entryState stop_signal) opts with
  | .exit code trace => .exit code trace
  | .returned st =>
    match env.prepare_keeper_options st.pgdata with
    | some code => .exit code st.trace
    | none => .returned st

/-! ## `cli_service_stop` (lines 397-419) and `cli_service_reload` (251-267) -/

/-- The function `cli_service_stop`, for a given value of `stop_signal`. -/
def cli_service_stop (env : Env) (stop_signal : Int) : Run :=
  match env.read_pidfile with
  | some pid =>
    let ret := env.kill pid stop_signal
    if ret ≠ 0 then
      { outcome := .exit EXIT_CODE_INTERNAL_ERROR
        trace :=
          [.read_pidfile (some pid), .kill pid stop_signal ret,
           .log LOG_ERROR "Failed to send %s to pg_autoctl pid %d: %m"
             [.strsignal stop_signal, .int pid]] }
    else
      { outcome := .returned
        trace := [.read_pidfile (some pid), .kill pid stop_signal ret] }
  | none =>
    { outcome := .returned
      trace :=
        [.read_pidfile none,
         .log LOG_FATAL "Failed to read the keeper's PID at \"%s\""
           [.str env.pathnames_pid]] }

/-- The function `cli_service_reload`. -/
def cli_service_reload (env : Env) : Run :=
  match env.read_pidfile with
  | some pid =>
    let ret := env.kill pid SIGHUP
    if ret ≠ 0 then
      { outcome := .exit EXIT_CODE_INTERNAL_ERROR
        trace :=
          [.read_pidfile (some pid), .kill pid SIGHUP ret,
           .log LOG_ERROR "Failed to send SIGHUP to pg_autoctl pid %d: %m"
             [.int pid]] }
    else
      { outcome := .returned
        trace := [.read_pidfile (some pid), .kill pid SIGHUP ret] }
  | none => { outcome := .returned, trace := [.read_pidfile none] }

/-- The `stop` command as registered at lines 61-69: the option parser
`cli_getopt_pgdata_and_mode` runs first, with the file-level `stop_signal` at
its initial value `SIGTERM`; only when it returns does `cli_service_stop` run,
with the `stop_signal` the parser left behind. -/
def service_stop_command (env : Env) (opts : List GetoptResult) : Run :=
  match cli_getopt_pgdata_and_mode env SIGTERM opts with
  | .exit code trace => { outcome := .exit code, trace := trace }
  | .returned st =>
    let run := cli_service_stop env st.stop_signal
    { outcome := run.outcome, trace := st.trace ++ run.trace }

/-! ## `cli_service_status` (lines 426-505) -/

/-- Lines 464-505 of `cli_service_status`: the report, for the value `pid`
holds at that point, after the events of `trace`. -/
def cli_service_status_report (env : Env) (pid : Int) (trace : List Event) : Run :=
  let trace1 := trace ++
    [.log LOG_INFO "pg_autoctl is running with pid %d" [.int pid],
     .pg_setup_is_ready env.pg_setup_is_ready]
  if env.pg_setup_is_ready = true then
    let trace2 := trace1 ++
      [.log LOG_INFO "Postgres is serving PGDATA \"%s\" on port %d with pid %d"
        [.str env.pgdata, .int env.pgport, .int env.pidFile_pid]]
    if env.outputJSON = true then
      if env.pg_setup_as_json = false then
        { outcome := .exit EXIT_CODE_INTERNAL_ERROR
          trace := trace2 ++ [.pg_setup_as_json false] }
      else
        { outcome := .exit EXIT_CODE_QUIT
          trace := trace2 ++ [.pg_setup_as_json true, .cli_pprint_json pid] }
    else
      { outcome := .exit EXIT_CODE_QUIT, trace := trace2 }
  else
    { outcome := .exit EXIT_CODE_PGCTL, trace := trace1 }

/-- Lines 454-505 of `cli_service_status`: `read_pidfile`, the zero-signal
probe, then the report. The local `pid` still holds its initial value 0 when
`read_pidfile` fails. -/
def cli_service_status_pidfile (env : Env) (trace : List Event) : Run :=
  match env.read_pidfile with
  | some pid =>
    let ret := env.kill pid 0
    if ret ≠ 0 then
      { outcome := .exit EXIT_CODE_INTERNAL_ERROR
        trace := trace ++
          [.read_pidfile (some pid), .kill pid 0 ret,
           .log LOG_ERROR "pg_autoctl pid file contains stale pid %d" [.int pid]] }
    else
      cli_service_status_report env pid
        (trace ++ [.read_pidfile (some pid), .kill pid 0 ret])
  | none => cli_service_status_report env 0 (trace ++ [.read_pidfile none])

/-- The function `cli_service_status`. -/
def cli_service_status (env : Env) : Run :=
  if env.cli_common_pgsetup_init = false then
    { outcome := .exit EXIT_CODE_BAD_CONFIG
      trace := [.cli_common_pgsetup_init false] }
  else if env.file_exists = false then
    let trace1 : List Event :=
      [.cli_common_pgsetup_init true, .file_exists false,
       .log LOG_INFO "pg_autoctl pid file \"%s\" does not exists"
         [.str env.pathnames_pid],
       .pg_setup_is_running env.pg_setup_is_running]
    if env.pg_setup_is_running = true then
      { outcome := .exit EXIT_CODE_INTERNAL_ERROR
        trace := trace1 ++
          [.log LOG_FATAL "Postgres is running at \"%s\" with pid %d"
            [.str env.pgdata, .int env.pidFile_pid]] }
    else
      cli_service_status_pidfile env trace1
  else
    cli_service_status_pidfile env
      [.cli_common_pgsetup_init true, .file_exists true]

/-! ## `cli_service_restart` (lines 513-564) -/

/-- How the `do ... while (newPid == pid)` loop ends. -/
inductive PollResult where
  | exit (code : ExitCode) (trace : List Event)
  | left (newPid : Int) (trace : List Event)
  | pending (trace : List Event)
  deriving DecidableEq, Repr

/-- The `do ... while (newPid == pid)` loop of lines 544-558, over the
answers the service locator still has to give. -/
def restart_poll (env : Env) (serviceName : String) (pid : Int) :
    List Event → List (Option Int) → PollResult
  | trace, [] => .pending trace
  | trace, none :: _ =>
    .exit EXIT_CODE_INTERNAL_ERROR
      (trace ++
        [.supervisor_find_service_pid serviceName none,
         .log LOG_FATAL "Failed to find pid for service name \"%s\""
           [.str serviceName]])
  | trace, some newPid :: rest =>
    if newPid = pid then
      restart_poll env serviceName pid
        (trace ++
          [.supervisor_find_service_pid serviceName (some newPid),
           .log LOG_TRACE "pidfile \"%s\" still contains pid %d for service \"%s\""
             [.str env.pathnames_pid, .int newPid, .str serviceName],
           .pg_usleep (100 * 1000)])
        rest
    else
      .left newPid
        (trace ++
          [.supervisor_find_service_pid serviceName (some newPid),
           .pg_usleep (100 * 1000)])

/-- The function `cli_service_restart`. -/
def cli_service_restart (env : Env) (serviceName : String) : Run :=
  if env.cli_common_pgsetup_init = false then
    { outcome := .exit EXIT_CODE_BAD_CONFIG
      trace := [.cli_common_pgsetup_init false] }
  else
    match env.supervisor_find_service_pid with
    | [] => { outcome := .pending, trace := [.cli_common_pgsetup_init true] }
    | none :: _ =>
      { outcome := .exit EXIT_CODE_INTERNAL_ERROR
        trace :=
          [.cli_common_pgsetup_init true,
           .supervisor_find_service_pid serviceName none,
           .log LOG_FATAL "Failed to find pid for service name \"%s\""
             [.str serviceName]] }
    | some pid :: rest =>
      let ret := env.kill pid SIGTERM
      let trace1 : List Event :=
        [.cli_common_pgsetup_init true,
         .supervisor_find_service_pid serviceName (some pid),
         .log LOG_INFO "Sending the TERM signal to service \"%s\" with pid %d"
           [.str serviceName, .int pid],
         .kill pid SIGTERM ret]
      if ret ≠ 0 then
        { outcome := .exit EXIT_CODE_INTERNAL_ERROR
          trace := trace1 ++
            [.log LOG_ERROR "Failed to send SIGHUP to the pg_autoctl pid %d: %m"
              [.int pid]] }
      else
        match restart_poll env serviceName pid trace1 rest with
        | .exit code trace => { outcome := .exit code, trace := trace }
        | .pending trace => { outcome := .pending, trace := trace }
        | .left newPid trace =>
          { outcome := .returned
            trace := trace ++
              [.log LOG_INFO "Service \"%s\" has been restarted with pid %d"
                [.str serviceName, .int newPid],
               .stdout "%d\n" [.int pid]] }

/-- The function `cli_service_restart_postgres`. -/
def cli_service_restart_postgres (env : Env) : Run :=
  cli_service_restart env "postgres"

/-- The function `cli_service_restart_listener`. -/
def cli_service_restart_listener (env : Env) : Run :=
  cli_service_restart env "listener"

/-- The function `cli_service_restart_node_active`. -/
def cli_service_restart_node_active (env : Env) : Run :=
  cli_service_restart env "node active"

/-! ## `cli_service_restart_all` (lines 610-667) -/

/-- Lines 654-662: `strchr(line, ' ')` finds the first space, if any; the line
is then cut there, giving the text before it (what is left in
`fileLines[lineNumber]`) and the text after it (`serviceName`). -/
def splitAtSeparator (line : String) : Option (String × String) :=
  if ' ' ∈ line.data then
    some (String.mk (line.data.takeWhile (fun c => c != ' ')),
          String.mk ((line.data.dropWhile (fun c => c != ' ')).drop 1))
  else
    none

/-- The value of the local `pid` after `stringToInt(fileLines[lineNumber], &pid)`:
the parsed number, or still unassigned when the call fails. -/
def pidArg (env : Env) (text : String) : Arg :=
  match env.stringToInt text with
  | some pid => .int pid
  | none => .uninit

/-- The `for` loop of lines 642-666, from line number `lineNumber` on, over the
lines still to visit. -/
def restart_all_loop (env : Env) : Nat → List String → List Event
  | _, [] => []
  | lineNumber, line :: rest =>
    if lineNumber < 2 then
      restart_all_loop env (lineNumber + 1) rest
    else
      match splitAtSeparator line with
      | none =>
        .log LOG_DEBUG "Failed to find a space separator in line: \"%s\""
            [.str line] ::
          restart_all_loop env (lineNumber + 1) rest
      | some (pidText, serviceName) =>
        .log LOG_INFO "Restarting service \"%s\" with pid %d"
            [.str serviceName, pidArg env pidText] ::
          restart_all_loop env (lineNumber + 1) rest

/-- The function `cli_service_restart_all`. -/
def cli_service_restart_all (env : Env) : Run :=
  if env.cli_common_pgsetup_init = false then
    { outcome := .exit EXIT_CODE_BAD_CONFIG
      trace := [.cli_common_pgsetup_init false] }
  else if env.file_exists = false then
    { outcome := .exit EXIT_CODE_BAD_STATE
      trace := [.cli_common_pgsetup_init true, .file_exists false] }
  else
    match env.read_file with
    | none =>
      { outcome := .exit EXIT_CODE_BAD_STATE
        trace :=
          [.cli_common_pgsetup_init true, .file_exists true, .read_file none] }
    | some fileContents =>
      { outcome := .returned
        trace :=
          [.cli_common_pgsetup_init true, .file_exists true,
           .read_file (some fileContents)] ++
          restart_all_loop env 0 (env.splitLines fileContents env.BUFSIZE) }

/-- Whether an event is one the option parser can produce: a log line, a log
level change or the help text. -/
def Event.isParserEvent : Event → Bool
  | .log _ _ _ => true
  | .log_set_level _ => true
  | .commandline_help => true
  | _ => false

/-- The service entries a trace reports: for each `log_info` call with a
service name and a pid argument, the name and the pid (`none` when the pid
variable was never assigned). -/
def reportedServices : List Event → List (String × Option Int)
  | [] => []
  | .log .LOG_INFO _ [.str serviceName, .int pid] :: t =>
    (serviceName, some pid) :: reportedServices t
  | .log .LOG_INFO _ [.str serviceName, .uninit] :: t =>
    (serviceName, none) :: reportedServices t
  | _ :: t => reportedServices t

/-- What the spec says `restart all` reports on, in its own words: the lines
of the registry in file order, skipping the two header lines (indices 0 and 1)
and every line that has no space separator. -/
def specDataLines (fileLines : List String) : List String :=
  (fileLines.drop 2).filter (fun line => decide (' ' ∈ line.data))

/-- A concrete environment used to run the commands on examples: a registry
with supervisor pid 4821 and two services, every signal delivered. -/
def sampleEnv : Env where
  pathnames_pid := "/tmp/pg_autoctl/pg_autoctl.pid"
  pgdata := "/var/lib/postgres/data"
  pgport := 5432
  pidFile_pid := 4900
  cli_common_pgsetup_init := true
  file_exists := true
  read_pidfile := some 4821
  read_file := some "4821\n99\n4822 postgres\n4823 listener"
  splitLines := fun contents size => (contents.splitOn "\n").take size
  stringToInt := String.toInt?
  kill := fun _ _ => 0
  pg_setup_is_running := true
  pg_setup_is_ready := true
  outputJSON := false
  pg_setup_as_json := true
  supervisor_find_service_pid := [some 4822, some 4822, some 5001]
  keeper_cli_print_version := some EXIT_CODE_QUIT
  prepare_keeper_options := fun _ => none
  BUFSIZE := 1024

/-- The environment `sampleEnv` on a host where nothing runs: no registry
file, so `read_pidfile` fails, and Postgres neither running nor ready. -/
def stoppedEnv : Env :=
  { sampleEnv with
    file_exists := false
    read_pidfile := none
    read_file := none
    pg_setup_is_running := false
    pg_setup_is_ready := false
    supervisor_find_service_pid := [none] }

/-! ## Reading a trace: basic facts -/

theorem kills_append (a b : List Event) : kills (a ++ b) = kills a ++ kills b := by
  induction a with
  | nil => rfl
  | cons e t ih => cases e <;> simp [kills, ih]

theorem lookups_append (a b : List Event) :
    lookups (a ++ b) = lookups a ++ lookups b := by
  induction a with
  | nil => rfl
  | cons e t ih => cases e <;> simp [lookups, ih]

theorem stdoutWrites_append (a b : List Event) :
    stdoutWrites (a ++ b) = stdoutWrites a ++ stdoutWrites b := by
  induction a with
  | nil => rfl
  | cons e t ih => cases e <;> simp [stdoutWrites, ih]

theorem kills_of_parser_events (t : List Event)
    (h : ∀ e ∈ t, e.isParserEvent = true) : kills t = [] := by
  induction t with
  | nil => rfl
  | cons e t ih =>
    have he := h e (List.mem_cons_self e t)
    have ht := ih (fun x hx => h x (List.mem_cons_of_mem e hx))
    cases e <;> simp_all [kills, Event.isParserEvent]

/-! ## The option loop -/

theorem getopt_loop_append (env : Env) (pre rest : List GetoptResult) :
    ∀ st : ParseState, getopt_loop env st (pre ++ rest) =
      match getopt_loop env st pre with
      | .exit code trace => .exit code trace
      | .returned st1 => getopt_loop env st1 rest := by
  induction pre with
  | nil => intro st; simp [getopt_loop]
  | cons c pre ih =>
    intro st
    simp only [List.cons_append, getopt_loop]
    cases hc : getopt_case env st c with
    | exit code trace => simp
    | next st1 => simpa using ih st1

/-- One round of the `switch` that does not exit leaves `stop_signal` as it
was, unless it was `SIGTERM` and the option is a stop-mode flag. -/
theorem getopt_case_next (env : Env) (st st1 : ParseState) (c : GetoptResult)
    (h : getopt_case env st c = .next st1) :
    (c.isStopMode = false ∧ st1.stop_signal = st.stop_signal) ∨
    (st.stop_signal = SIGTERM ∧ c = .f ∧ st1.stop_signal = SIGINT) ∨
    (st.stop_signal = SIGTERM ∧ c = .i ∧ st1.stop_signal = SIGQUIT) := by
  cases c with
  | D optarg =>
    simp only [getopt_case, StepResult.next.injEq] at h
    subst h; simp [GetoptResult.isStopMode]
  | f =>
    by_cases hs : st.stop_signal = SIGTERM
    · simp only [getopt_case, hs, ne_eq, not_true_eq_false, if_false,
        StepResult.next.injEq] at h
      subst h; simp [hs]
    · simp [getopt_case, hs] at h
  | i =>
    by_cases hs : st.stop_signal = SIGTERM
    · simp only [getopt_case, hs, ne_eq, not_true_eq_false, if_false,
        StepResult.next.injEq] at h
      subst h; simp [hs]
    · simp [getopt_case, hs] at h
  | V =>
    simp only [getopt_case] at h
    cases hv : env.keeper_cli_print_version with
    | none => simp [hv] at h; subst h; simp [GetoptResult.isStopMode]
    | some code => simp [hv] at h
  | v =>
    simp only [getopt_case, StepResult.next.injEq] at h
    subst h; simp [GetoptResult.isStopMode]
  | q =>
    simp only [getopt_case, StepResult.next.injEq] at h
    subst h; simp [GetoptResult.isStopMode]
  | h => simp [getopt_case] at h
  | unknown => simp [getopt_case] at h

/-- When the loop returns, the stop-mode flags it met and the `stop_signal` it
leaves behind are tied together. -/
theorem getopt_loop_returned (env : Env) (opts : List GetoptResult) :
    ∀ st st1 : ParseState, getopt_loop env st opts = .returned st1 →
      (st.stop_signal ≠ SIGTERM →
        opts.filter GetoptResult.isStopMode = [] ∧
          st1.stop_signal = st.stop_signal) ∧
      (st.stop_signal = SIGTERM →
        (opts.filter GetoptResult.isStopMode = [] ∧ st1.stop_signal = SIGTERM) ∨
        (opts.filter GetoptResult.isStopMode = [.f] ∧ st1.stop_signal = SIGINT) ∨
        (opts.filter GetoptResult.isStopMode = [.i] ∧
          st1.stop_signal = SIGQUIT)) := by
  induction opts with
  | nil =>
    intro st st1 h
    simp only [getopt_loop, ParseResult.returned.injEq] at h
    subst h; simp
  | cons c rest ih =>
    intro st st1 h
    simp only [getopt_loop] at h
    cases hc : getopt_case env st c with
    | exit code trace => simp [hc] at h
    | next st2 =>
      simp only [hc] at h
      have hrest := ih st2 st1 h
      rcases getopt_case_next env st st2 c hc with ⟨hns, heq⟩ | ⟨hs, hf, h2⟩ |
        ⟨hs, hi, h2⟩
      · rw [heq] at hrest
        simpa [List.filter_cons, hns] using hrest
      · subst hf
        have h3 := hrest.1 (by rw [h2]; decide)
        constructor
        · intro hne; exact absurd hs hne
        · intro _
          right; left
          simp [List.filter_cons, GetoptResult.isStopMode, h3.1, h3.2, h2]
      · subst hi
        have h3 := hrest.1 (by rw [h2]; decide)
        constructor
        · intro hne; exact absurd hs hne
        · intro _
          right; right
          simp [List.filter_cons, GetoptResult.isStopMode, h3.1, h3.2, h2]

/-- The loop returns when no option on its way exits: no help, no unknown
option, no exiting version option, and no stop-mode flag once `stop_signal`
has left `SIGTERM`. -/
theorem getopt_loop_returns (env : Env) (opts : List GetoptResult)
    (hq : ∀ o ∈ opts, o ≠ .h ∧ o ≠ .unknown ∧
      (o = .V → env.keeper_cli_print_version = none)) :
    ∀ st : ParseState,
      ((st.stop_signal = SIGTERM ∧
          (opts.filter GetoptResult.isStopMode).length ≤ 1) ∨
        opts.filter GetoptResult.isStopMode = []) →
      ∃ st1, getopt_loop env st opts = .returned st1 := by
  induction opts with
  | nil => intro st _; exact ⟨st, rfl⟩
  | cons c rest ih =>
    intro st hst
    have hc := hq c (List.mem_cons_self c rest)
    have ih1 := ih (fun o ho => hq o (List.mem_cons_of_mem c ho))
    cases c with
    | D optarg =>
      simp only [getopt_loop, getopt_case]
      apply ih1
      simpa [List.filter_cons, GetoptResult.isStopMode] using hst
    | f =>
      have hs : st.stop_signal = SIGTERM ∧
          rest.filter GetoptResult.isStopMode = [] := by
        simpa [List.filter_cons, GetoptResult.isStopMode] using hst
      simp only [getopt_loop, getopt_case, hs.1, ne_eq, not_true_eq_false, if_false]
      exact ih1 _ (Or.inr hs.2)
    | i =>
      have hs : st.stop_signal = SIGTERM ∧
          rest.filter GetoptResult.isStopMode = [] := by
        simpa [List.filter_cons, GetoptResult.isStopMode] using hst
      simp only [getopt_loop, getopt_case, hs.1, ne_eq, not_true_eq_false, if_false]
      exact ih1 _ (Or.inr hs.2)
    | V =>
      have hv := hc.2.2 rfl
      simp only [getopt_loop, getopt_case, hv]
      apply ih1
      simpa [List.filter_cons, GetoptResult.isStopMode] using hst
    | v =>
      simp only [getopt_loop, getopt_case]
      apply ih1
      simpa [List.filter_cons, GetoptResult.isStopMode] using hst
    | q =>
      simp only [getopt_loop, getopt_case]
      apply ih1
      simpa [List.filter_cons, GetoptResult.isStopMode] using hst
    | h => exact absurd rfl hc.1
    | unknown => exact absurd rfl hc.2.1

/-- One round of the `switch` only adds parser events to the trace. -/
theorem getopt_case_events (env : Env) (st : ParseState) (c : GetoptResult)
    (h : ∀ e ∈ st.trace, e.isParserEvent = true) :
    match getopt_case env st c with
    | .exit _ trace => ∀ e ∈ trace, e.isParserEvent = true
    | .next st1 => ∀ e ∈ st1.trace, e.isParserEvent = true := by
  cases c with
  | D optarg =>
    simp only [getopt_case]
    intro e he
    rcases List.mem_append.1 he with h1 | h1
    · exact h e h1
    · simp at h1; subst h1; rfl
  | f =>
    by_cases hs : st.stop_signal = SIGTERM
    · simpa [getopt_case, hs] using h
    · simp only [getopt_case, ne_eq, hs, not_false_eq_true, if_true]
      intro e he
      rcases List.mem_append.1 he with h1 | h1
      · exact h e h1
      · simp at h1; subst h1; rfl
  | i =>
    by_cases hs : st.stop_signal = SIGTERM
    · simpa [getopt_case, hs] using h
    · simp only [getopt_case, ne_eq, hs, not_false_eq_true, if_true]
      intro e he
      rcases List.mem_append.1 he with h1 | h1
      · exact h e h1
      · simp at h1; subst h1; rfl
  | V =>
    cases hv : env.keeper_cli_print_version with
    | none => simpa [getopt_case, hv] using h
    | some code => simpa [getopt_case, hv] using h
  | v =>
    simp only [getopt_case]
    intro e he
    rcases List.mem_append.1 he with h1 | h1
    · exact h e h1
    · simp at h1; subst h1; rfl
  | q =>
    simp only [getopt_case]
    intro e he
    rcases List.mem_append.1 he with h1 | h1
    · exact h e h1
    · simp at h1; subst h1; rfl
  | h =>
    simp only [getopt_case]
    intro e he
    rcases List.mem_append.1 he with h1 | h1
    · exact h e h1
    · simp at h1; subst h1; rfl
  | unknown =>
    simp only [getopt_case]
    intro e he
    rcases List.mem_append.1 he with h1 | h1
    · exact h e h1
    · simp at h1; subst h1; rfl

/-- The option loop only adds parser events to the trace. -/
theorem getopt_loop_events (env : Env) (opts : List GetoptResult) :
    ∀ st : ParseState, (∀ e ∈ st.trace, e.isParserEvent = true) →
      match getopt_loop env st opts with
      | .exit _ trace => ∀ e ∈ trace, e.isParserEvent = true
      | .returned st1 => ∀ e ∈ st1.trace, e.isParserEvent = true := by
  induction opts with
  | nil => intro st h; simpa [getopt_loop] using h
  | cons c rest ih =>
    intro st h
    have hc := getopt_case_events env st c h
    simp only [getopt_loop]
    cases hs : getopt_case env st c with
    | exit code trace => simpa [hs] using hc
    | next st1 =>
      rw [hs] at hc
      exact ih st1 hc

/-- The parser `cli_getopt_pgdata_and_mode` only produces parser events. -/
theorem cli_getopt_events (env : Env) (sig : Int) (opts : List GetoptResult) :
    match cli_getopt_pgdata_and_mode env sig opts with
    | .exit _ trace => ∀ e ∈ trace, e.isParserEvent = true
    | .returned st1 => ∀ e ∈ st1.trace, e.isParserEvent = true := by
  have h := getopt_loop_events env opts (entryState sig) (by simp [entryState])
  unfold cli_getopt_pgdata_and_mode
  cases hl : getopt_loop env (entryState sig) opts with
  | exit code trace => simpa [hl] using h
  | returned st =>
    rw [hl] at h
    cases hp : env.prepare_keeper_options st.pgdata with
    | none => simpa [hp] using h
    | some code => simpa [hp] using h

/-! ## The stop command -/

/-- C1: when the option sequence holds both a fast (`f`) and an immediate (`i`)
flag, in either order, `cli_getopt_pgdata_and_mode` started with `SIGTERM`
never returns: it ends in an `exit`. The `stop` command then ends in that exit
too, never reads the pid file (so `cli_service_stop` is not reached) and calls
`kill` not once. The exit code is `EXIT_CODE_BAD_ARGS`, raised at the second
stop-mode flag, whenever no help, unknown or exiting version option comes
before that flag: the options before it are then all processed without exit. -/
theorem fast_and_immediate_never_return (env : Env) (opts : List GetoptResult)
    (hf : GetoptResult.f ∈ opts) (hi : GetoptResult.i ∈ opts) :
    (∃ code trace,
      cli_getopt_pgdata_and_mode env SIGTERM opts = .exit code trace) ∧
    (∃ code, (service_stop_command env opts).outcome = .exit code) ∧
    kills (service_stop_command env opts).trace = [] ∧
    (∀ pid, Event.read_pidfile pid ∉ (service_stop_command env opts).trace) ∧
    (∀ pre s post, opts = pre ++ s :: post → s.isStopMode = true →
      (pre.filter GetoptResult.isStopMode).length = 1 →
      (∀ o ∈ pre, o ≠ .h ∧ o ≠ .unknown ∧
        (o = .V → env.keeper_cli_print_version = none)) →
      (∃ st, getopt_loop env (entryState SIGTERM) pre = .returned st) ∧
      (∃ trace, cli_getopt_pgdata_and_mode env SIGTERM opts =
        .exit EXIT_CODE_BAD_ARGS trace) ∧
      (service_stop_command env opts).outcome = .exit EXIT_CODE_BAD_ARGS) := by
  have hloop : ∃ code trace,
      getopt_loop env (entryState SIGTERM) opts = .exit code trace := by
    cases hl : getopt_loop env (entryState SIGTERM) opts with
    | exit code trace => exact ⟨code, trace, rfl⟩
    | returned st =>
      exfalso
      have hff : GetoptResult.f ∈ opts.filter GetoptResult.isStopMode :=
        List.mem_filter.2 ⟨hf, rfl⟩
      have hii : GetoptResult.i ∈ opts.filter GetoptResult.isStopMode :=
        List.mem_filter.2 ⟨hi, rfl⟩
      rcases (getopt_loop_returned env opts _ st hl).2 rfl with h | h | h
      · rw [h.1] at hff; simp at hff
      · rw [h.1] at hii; simp at hii
      · rw [h.1] at hff; simp at hff
  obtain ⟨code, trace, hl⟩ := hloop
  have hparse : cli_getopt_pgdata_and_mode env SIGTERM opts = .exit code trace := by
    simp [cli_getopt_pgdata_and_mode, hl]
  have hev := cli_getopt_events env SIGTERM opts
  rw [hparse] at hev
  have hcmd : service_stop_command env opts =
      { outcome := .exit code, trace := trace } := by
    simp [service_stop_command, hparse]
  refine ⟨⟨code, trace, hparse⟩, ⟨code, by rw [hcmd]⟩, ?_, ?_, ?_⟩
  · rw [hcmd]; exact kills_of_parser_events trace hev
  · intro pid hmem
    rw [hcmd] at hmem
    have := hev _ hmem
    simp [Event.isParserEvent] at this
  · intro pre s post hopts hs hlen hq
    obtain ⟨st, hpre⟩ := getopt_loop_returns env pre hq (entryState SIGTERM)
      (Or.inl ⟨rfl, le_of_eq hlen⟩)
    have hsig : st.stop_signal ≠ SIGTERM := by
      rcases (getopt_loop_returned env pre _ st hpre).2 rfl with h | h | h
      · rw [h.1] at hlen; simp at hlen
      · rw [h.2]; decide
      · rw [h.2]; decide
    have hwhole : ∃ tr, getopt_loop env (entryState SIGTERM) opts =
        .exit EXIT_CODE_BAD_ARGS tr := by
      rw [hopts, getopt_loop_append, hpre]
      cases s with
      | f => simp [getopt_loop, getopt_case, hsig]
      | i => simp [getopt_loop, getopt_case, hsig]
      | D optarg => simp [GetoptResult.isStopMode] at hs
      | V => simp [GetoptResult.isStopMode] at hs
      | v => simp [GetoptResult.isStopMode] at hs
      | q => simp [GetoptResult.isStopMode] at hs
      | h => simp [GetoptResult.isStopMode] at hs
      | unknown => simp [GetoptResult.isStopMode] at hs
    obtain ⟨tr, hw⟩ := hwhole
    have hp2 : cli_getopt_pgdata_and_mode env SIGTERM opts =
        .exit EXIT_CODE_BAD_ARGS tr := by
      simp [cli_getopt_pgdata_and_mode, hw]
    refine ⟨⟨st, hpre⟩, ⟨tr, hp2⟩, ?_⟩
    simp [service_stop_command, hp2]

/-- Witness for C1: the options `--fast --pgdata /data --immediate`. -/
theorem fast_and_immediate_never_return_witness :
    (∃ code trace,
      cli_getopt_pgdata_and_mode sampleEnv SIGTERM [.f, .D "/data", .i] =
        .exit code trace) ∧
    (service_stop_command sampleEnv [.f, .D "/data", .i]).outcome =
      .exit EXIT_CODE_BAD_ARGS ∧
    kills (service_stop_command sampleEnv [.f, .D "/data", .i]).trace = [] :=
  have h := fast_and_immediate_never_return sampleEnv [.f, .D "/data", .i]
    (by decide) (by decide)
  ⟨h.1, (h.2.2.2.2 [.f, .D "/data"] .i [] rfl rfl rfl (by decide)).2.2, h.2.2.1⟩

/-- When `read_pidfile` gives pid `p`, `cli_service_stop` calls `kill` exactly
once, on `p`, with the current `stop_signal`. -/
theorem cli_service_stop_kills (env : Env) (sig p : Int)
    (hpid : env.read_pidfile = some p) :
    kills (cli_service_stop env sig).trace = [(p, sig)] := by
  unfold cli_service_stop
  rw [hpid]
  by_cases hk : env.kill p sig = 0 <;> simp [hk, kills]

/-- C8: when `cli_getopt_pgdata_and_mode`, started with `SIGTERM`, returns and
the registry is readable with supervisor pid `p`, the `stop` command (and
`cli_service_stop` itself) calls `kill` exactly once, on `p`; the signal is
`SIGTERM` when no stop-mode flag was given, `SIGINT` when the fast flag was
given and `SIGQUIT` when the immediate flag was given. -/
theorem stop_sends_selected_signal (env : Env) (opts : List GetoptResult)
    (st : ParseState) (p : Int)
    (hparse : cli_getopt_pgdata_and_mode env SIGTERM opts = .returned st)
    (hpid : env.read_pidfile = some p) :
    kills (service_stop_command env opts).trace = [(p, st.stop_signal)] ∧
    kills (cli_service_stop env st.stop_signal).trace = [(p, st.stop_signal)] ∧
    (GetoptResult.f ∉ opts ∧ GetoptResult.i ∉ opts → st.stop_signal = SIGTERM) ∧
    (GetoptResult.f ∈ opts → st.stop_signal = SIGINT) ∧
    (GetoptResult.i ∈ opts → st.stop_signal = SIGQUIT) := by
  have hk := cli_service_stop_kills env st.stop_signal p hpid
  have hev := cli_getopt_events env SIGTERM opts
  rw [hparse] at hev
  have hloop : getopt_loop env (entryState SIGTERM) opts = .returned st := by
    unfold cli_getopt_pgdata_and_mode at hparse
    cases hl : getopt_loop env (entryState SIGTERM) opts with
    | exit code trace => simp [hl] at hparse
    | returned st2 =>
      rw [hl] at hparse
      cases hp : env.prepare_keeper_options st2.pgdata with
      | none => simpa [hp] using hparse
      | some code => simp [hp] at hparse
  have hmemf : ∀ l : List GetoptResult,
      GetoptResult.f ∈ l ↔ GetoptResult.f ∈ l.filter GetoptResult.isStopMode :=
    fun l => ⟨fun h => List.mem_filter.2 ⟨h, rfl⟩, fun h => (List.mem_filter.1 h).1⟩
  have hmemi : ∀ l : List GetoptResult,
      GetoptResult.i ∈ l ↔ GetoptResult.i ∈ l.filter GetoptResult.isStopMode :=
    fun l => ⟨fun h => List.mem_filter.2 ⟨h, rfl⟩, fun h => (List.mem_filter.1 h).1⟩
  refine ⟨?_, hk, ?_⟩
  · simp only [service_stop_command, hparse, kills_append, hk]
    rw [kills_of_parser_events st.trace hev]
    rfl
  · rw [hmemf opts, hmemi opts]
    rcases (getopt_loop_returned env opts _ st hloop).2 rfl with h | h | h <;>
      simp [h.1, h.2]

/-- Witness for C8: `stop --fast` with supervisor pid 4821 in the registry. -/
theorem stop_sends_selected_signal_witness :
    kills (service_stop_command sampleEnv [.f]).trace = [(4821, SIGINT)] :=
  (stop_sends_selected_signal sampleEnv [.f]
    { stop_signal := SIGINT, pgdata := "", verboseCount := 0, trace := [] }
    4821 rfl rfl).1

/-- C10: started with `stop_signal = SIGTERM`, the option loop keeps
`stop_signal` among `SIGTERM`, `SIGINT` and `SIGQUIT` after every processed
option (and each round of the `switch` preserves that); once `stop_signal` is
not `SIGTERM` no round assigns it again, since a stop-mode flag then exits
with `EXIT_CODE_BAD_ARGS`; so two stop-mode flags, identical or not, are
rejected alike, and the parser returns only when the whole sequence holds at
most one stop-mode flag. -/
theorem stop_signal_invariant (env : Env) :
    (∀ opts st, getopt_loop env (entryState SIGTERM) opts = .returned st →
      st.stop_signal = SIGTERM ∨ st.stop_signal = SIGINT ∨
        st.stop_signal = SIGQUIT) ∧
    (∀ st c st1, getopt_case env st c = .next st1 →
      (st.stop_signal = SIGTERM ∨ st.stop_signal = SIGINT ∨
        st.stop_signal = SIGQUIT) →
      st1.stop_signal = SIGTERM ∨ st1.stop_signal = SIGINT ∨
        st1.stop_signal = SIGQUIT) ∧
    (∀ st c st1, st.stop_signal ≠ SIGTERM → getopt_case env st c = .next st1 →
      st1.stop_signal = st.stop_signal) ∧
    (∀ st c, st.stop_signal ≠ SIGTERM → c.isStopMode = true →
      getopt_case env st c = .exit EXIT_CODE_BAD_ARGS
        (st.trace ++
          [.log LOG_FATAL "Please use either --fast or --immediate, not both" []])) ∧
    (∀ x y post, x.isStopMode = true → y.isStopMode = true →
      cli_getopt_pgdata_and_mode env SIGTERM (x :: y :: post) =
        .exit EXIT_CODE_BAD_ARGS
          [.log LOG_FATAL "Please use either --fast or --immediate, not both" []]) ∧
    (∀ opts st, cli_getopt_pgdata_and_mode env SIGTERM opts = .returned st →
      (opts.filter GetoptResult.isStopMode).length ≤ 1) := by
  refine ⟨?_, ?_, ?_, ?_, ?_, ?_⟩
  · intro opts st h
    rcases (getopt_loop_returned env opts _ st h).2 rfl with h1 | h1 | h1
    · exact Or.inl h1.2
    · exact Or.inr (Or.inl h1.2)
    · exact Or.inr (Or.inr h1.2)
  · intro st c st1 h hst
    rcases getopt_case_next env st st1 c h with ⟨_, h1⟩ | ⟨_, _, h1⟩ | ⟨_, _, h1⟩
    · rw [h1]; exact hst
    · exact Or.inr (Or.inl h1)
    · exact Or.inr (Or.inr h1)
  · intro st c st1 hne h
    rcases getopt_case_next env st st1 c h with ⟨_, h1⟩ | ⟨h1, _⟩ | ⟨h1, _⟩
    · exact h1
    · exact absurd h1 hne
    · exact absurd h1 hne
  · intro st c hne hc
    cases c <;> simp_all [GetoptResult.isStopMode, getopt_case]
  · intro x y post hx hy
    cases x <;> cases y <;>
      simp_all [GetoptResult.isStopMode, cli_getopt_pgdata_and_mode, getopt_loop,
        getopt_case, entryState]
  · intro opts st h
    have hloop : getopt_loop env (entryState SIGTERM) opts = .returned st := by
      unfold cli_getopt_pgdata_and_mode at h
      cases hl : getopt_loop env (entryState SIGTERM) opts with
      | exit code trace => simp [hl] at h
      | returned st2 =>
        rw [hl] at h
        cases hp : env.prepare_keeper_options st2.pgdata with
        | none => simpa [hp] using h
        | some code => simp [hp] at h
    rcases (getopt_loop_returned env opts _ st hloop).2 rfl with h1 | h1 | h1 <;>
      simp [h1.1]

/-- Witness for C10: `--fast --fast` is rejected with `EXIT_CODE_BAD_ARGS`. -/
theorem stop_signal_invariant_witness :
    cli_getopt_pgdata_and_mode sampleEnv SIGTERM [.f, .f] =
      .exit EXIT_CODE_BAD_ARGS
        [.log LOG_FATAL "Please use either --fast or --immediate, not both" []] :=
  (stop_signal_invariant sampleEnv).2.2.2.2.1 .f .f [] rfl rfl

/-- C5, the code at a failing input: with no readable registry
(`read_pidfile` fails) `cli_service_stop` sends no signal and logs at the
fatal level, but then returns to its caller instead of ending the process with
a failure exit code. -/
theorem cli_service_stop_unreadable_registry_returns :
    stoppedEnv.read_pidfile = none ∧
    cli_service_stop stoppedEnv SIGTERM =
      { outcome := .returned
        trace :=
          [.read_pidfile none,
           .log LOG_FATAL "Failed to read the keeper's PID at \"%s\""
             [.str "/tmp/pg_autoctl/pg_autoctl.pid"]] } ∧
    kills (cli_service_stop stoppedEnv SIGTERM).trace = [] ∧
    (∀ code, (cli_service_stop stoppedEnv SIGTERM).outcome ≠ .exit code) := by
  refine ⟨rfl, rfl, rfl, ?_⟩
  intro code h
  simp [cli_service_stop, stoppedEnv] at h

/-! ## The reload command -/

/-- C7, the claim fails as stated: against a path with no registry file
(`read_pidfile` fails) `cli_service_reload` logs nothing at all, so it does not
log a skip. -/
theorem cli_service_reload_logs_no_skip :
    stoppedEnv.read_pidfile = none ∧
    logs (cli_service_reload stoppedEnv).trace = [] := by
  exact ⟨rfl, rfl⟩

/-- C7, amended: when `read_pidfile` fails, `cli_service_reload` does nothing
but that failed read: it calls `kill` not once, logs nothing, and returns to
its caller without calling `exit`. -/
theorem cli_service_reload_no_registry (env : Env)
    (hpid : env.read_pidfile = none) :
    cli_service_reload env = { outcome := .returned, trace := [.read_pidfile none] } ∧
    kills (cli_service_reload env).trace = [] ∧
    logs (cli_service_reload env).trace = [] ∧
    (∀ code, (cli_service_reload env).outcome ≠ .exit code) := by
  have h : cli_service_reload env =
      { outcome := .returned, trace := [.read_pidfile none] } := by
    simp [cli_service_reload, hpid]
  rw [h]
  refine ⟨rfl, rfl, rfl, ?_⟩
  intro code hc
  cases hc

/-- Witness for C7 amended: the environment with no registry file. -/
theorem cli_service_reload_no_registry_witness :
    cli_service_reload stoppedEnv =
      { outcome := .returned, trace := [.read_pidfile none] } :=
  (cli_service_reload_no_registry stoppedEnv rfl).1

/-! ## The status command -/

/-- C4, the code at a failing input: setup initialisation succeeds, the
registry file does not exist and Postgres is not running. `cli_service_status`
logs that the pid file does not exist, then still reaches the lines written
for a running pg_autoctl: it logs "pg_autoctl is running with pid 0" and ends
with `EXIT_CODE_PGCTL`, not with the success class. -/
theorem cli_service_status_nothing_running_exits_pgctl :
    stoppedEnv.cli_common_pgsetup_init = true ∧
    stoppedEnv.file_exists = false ∧
    stoppedEnv.pg_setup_is_running = false ∧
    cli_service_status stoppedEnv =
      { outcome := .exit EXIT_CODE_PGCTL
        trace :=
          [.cli_common_pgsetup_init true, .file_exists false,
           .log LOG_INFO "pg_autoctl pid file \"%s\" does not exists"
             [.str "/tmp/pg_autoctl/pg_autoctl.pid"],
           .pg_setup_is_running false,
           .read_pidfile none,
           .log LOG_INFO "pg_autoctl is running with pid %d" [.int 0],
           .pg_setup_is_ready false] } ∧
    ExitCode.isSuccess EXIT_CODE_PGCTL = false := by
  refine ⟨rfl, rfl, rfl, rfl, rfl⟩

/-- C6: when setup initialisation has succeeded and `cli_service_status` meets
a stale state, either (a) the registry file is absent while Postgres is found
running, or (b) the registry file exists, `read_pidfile` gives pid `p` and the
probe `kill(p, 0)` fails, then it ends with `EXIT_CODE_INTERNAL_ERROR` (hence
neither with `EXIT_CODE_QUIT` nor with `EXIT_CODE_PGCTL`), without having
called `pg_setup_is_ready`, without the "pg_autoctl is running" line and
without printing a JSON report. -/
theorem cli_service_status_stale_state (env : Env)
    (hinit : env.cli_common_pgsetup_init = true)
    (hstale : (env.file_exists = false ∧ env.pg_setup_is_running = true) ∨
      (∃ p, env.file_exists = true ∧ env.read_pidfile = some p ∧
        env.kill p 0 ≠ 0)) :
    (cli_service_status env).outcome = .exit EXIT_CODE_INTERNAL_ERROR ∧
    (cli_service_status env).outcome ≠ .exit EXIT_CODE_QUIT ∧
    (cli_service_status env).outcome ≠ .exit EXIT_CODE_PGCTL ∧
    readinessQueries (cli_service_status env).trace = [] ∧
    (∀ entry ∈ logs (cli_service_status env).trace,
      entry.2.1 ≠ "pg_autoctl is running with pid %d" ∧
      entry.2.1 ≠ "Postgres is serving PGDATA \"%s\" on port %d with pid %d") ∧
    (∀ pid, Event.cli_pprint_json pid ∉ (cli_service_status env).trace) ∧
    stdoutWrites (cli_service_status env).trace = [] := by
  rcases hstale with ⟨hfile, hrun⟩ | ⟨p, hfile, hpid, hkill⟩
  · have h : cli_service_status env =
        { outcome := .exit EXIT_CODE_INTERNAL_ERROR
          trace :=
            [.cli_common_pgsetup_init true, .file_exists false,
             .log LOG_INFO "pg_autoctl pid file \"%s\" does not exists"
               [.str env.pathnames_pid],
             .pg_setup_is_running true,
             .log LOG_FATAL "Postgres is running at \"%s\" with pid %d"
               [.str env.pgdata, .int env.pidFile_pid]] } := by
      simp [cli_service_status, hinit, hfile, hrun]
    rw [h]
    refine ⟨rfl, by simp, by simp, rfl, ?_, ?_, rfl⟩
    · intro entry hentry
      simp only [logs, List.mem_cons, List.mem_singleton, List.not_mem_nil,
        or_false] at hentry
      rcases hentry with h1 | h1 <;> subst h1 <;> constructor <;> simp
    · intro pid hmem
      simp at hmem
  · have h : cli_service_status env =
        { outcome := .exit EXIT_CODE_INTERNAL_ERROR
          trace :=
            [.cli_common_pgsetup_init true, .file_exists true,
             .read_pidfile (some p), .kill p 0 (env.kill p 0),
             .log LOG_ERROR "pg_autoctl pid file contains stale pid %d"
               [.int p]] } := by
      simp [cli_service_status, cli_service_status_pidfile, hinit, hfile, hpid,
        hkill]
    rw [h]
    refine ⟨rfl, by simp, by simp, rfl, ?_, ?_, rfl⟩
    · intro entry hentry
      simp only [logs, List.mem_cons, List.mem_singleton, List.not_mem_nil,
        or_false] at hentry
      subst hentry
      constructor <;> simp
    · intro pid hmem
      simp at hmem

/-- Witness for C6: no registry file on a host where Postgres runs. -/
theorem cli_service_status_stale_state_witness :
    (cli_service_status { sampleEnv with file_exists := false }).outcome =
      .exit EXIT_CODE_INTERNAL_ERROR :=
  (cli_service_status_stale_state { sampleEnv with file_exists := false } rfl
    (Or.inl ⟨rfl, rfl⟩)).1

/-! ## The restart command -/

/-- The polling loop, fed `k` answers equal to the old pid and then a
different pid, leaves at that answer: it adds `k + 1` lookups to the trace and
neither a `kill` call nor output. -/
theorem restart_poll_left (env : Env) (serviceName : String) (P P1 : Int)
    (hne : P1 ≠ P) (rest : List (Option Int)) (k : Nat) :
    ∀ trace : List Event, ∃ t,
      restart_poll env serviceName P trace
          (List.replicate k (some P) ++ some P1 :: rest) =
        .left P1 (trace ++ t) ∧
      kills t = [] ∧
      lookups t = List.replicate k (some P) ++ [some P1] ∧
      stdoutWrites t = [] := by
  induction k with
  | zero =>
    intro trace
    refine ⟨[.supervisor_find_service_pid serviceName (some P1),
      .pg_usleep (100 * 1000)], ?_, rfl, rfl, rfl⟩
    simp [restart_poll, hne]
  | succ k ih =>
    intro trace
    obtain ⟨t, ht, hk, hl, hs⟩ := ih
      (trace ++
        [.supervisor_find_service_pid serviceName (some P),
         .log LOG_TRACE "pidfile \"%s\" still contains pid %d for service \"%s\""
           [.str env.pathnames_pid, .int P, .str serviceName],
         .pg_usleep (100 * 1000)])
    refine ⟨[.supervisor_find_service_pid serviceName (some P),
         .log LOG_TRACE "pidfile \"%s\" still contains pid %d for service \"%s\""
           [.str env.pathnames_pid, .int P, .str serviceName],
         .pg_usleep (100 * 1000)] ++ t, ?_, ?_, ?_, ?_⟩
    · have hcons : List.replicate (k + 1) (some P) ++ some P1 :: rest =
          some P :: (List.replicate k (some P) ++ some P1 :: rest) := rfl
      rw [hcons, restart_poll, if_pos rfl, ht, List.append_assoc]
    · rw [kills_append, hk]; rfl
    · rw [lookups_append, hl]; rfl
    · rw [stdoutWrites_append, hs]; rfl

/-- The polling loop, fed `k` answers equal to the old pid and then a failed
lookup, exits at that lookup with `EXIT_CODE_INTERNAL_ERROR`: it adds `k + 1`
lookups to the trace and neither a `kill` call nor output. -/
theorem restart_poll_exit (env : Env) (serviceName : String) (P : Int)
    (rest : List (Option Int)) (k : Nat) :
    ∀ trace : List Event, ∃ t,
      restart_poll env serviceName P trace
          (List.replicate k (some P) ++ none :: rest) =
        .exit EXIT_CODE_INTERNAL_ERROR (trace ++ t) ∧
      kills t = [] ∧
      lookups t = List.replicate k (some P) ++ [none] ∧
      stdoutWrites t = [] := by
  induction k with
  | zero =>
    intro trace
    refine ⟨[.supervisor_find_service_pid serviceName none,
      .log LOG_FATAL "Failed to find pid for service name \"%s\""
        [.str serviceName]], ?_, rfl, rfl, rfl⟩
    simp [restart_poll]
  | succ k ih =>
    intro trace
    obtain ⟨t, ht, hk, hl, hs⟩ := ih
      (trace ++
        [.supervisor_find_service_pid serviceName (some P),
         .log LOG_TRACE "pidfile \"%s\" still contains pid %d for service \"%s\""
           [.str env.pathnames_pid, .int P, .str serviceName],
         .pg_usleep (100 * 1000)])
    refine ⟨[.supervisor_find_service_pid serviceName (some P),
         .log LOG_TRACE "pidfile \"%s\" still contains pid %d for service \"%s\""
           [.str env.pathnames_pid, .int P, .str serviceName],
         .pg_usleep (100 * 1000)] ++ t, ?_, ?_, ?_, ?_⟩
    · have hcons : List.replicate (k + 1) (some P) ++ none :: rest =
          some P :: (List.replicate k (some P) ++ none :: rest) := rfl
      rw [hcons, restart_poll, if_pos rfl, ht, List.append_assoc]
    · rw [kills_append, hk]; rfl
    · rw [lookups_append, hl]; rfl
    · rw [stdoutWrites_append, hs]; rfl

/-- C2: with the service locator modelled as the sequence of its answers, and
setup initialisation done: if the initial lookup returns `P`, `kill(P, SIGTERM)`
succeeds, the next `k` polling lookups return `P` and the one after returns
`P1 ≠ P`, then `cli_service_restart` returns, having called `kill` exactly once
(`SIGTERM` to `P`), having made exactly `k + 1` polling lookups after the
initial one, the last of which is the first to differ from `P`, and having
written exactly the old pid `P` to standard output. -/
theorem cli_service_restart_reports_old_pid (env : Env) (serviceName : String)
    (P P1 : Int) (k : Nat) (rest : List (Option Int))
    (hinit : env.cli_common_pgsetup_init = true)
    (hne : P1 ≠ P)
    (hlookups : env.supervisor_find_service_pid =
      some P :: (List.replicate k (some P) ++ some P1 :: rest))
    (hkill : env.kill P SIGTERM = 0) :
    (cli_service_restart env serviceName).outcome = .returned ∧
    kills (cli_service_restart env serviceName).trace = [(P, SIGTERM)] ∧
    lookups (cli_service_restart env serviceName).trace =
      some P :: (List.replicate k (some P) ++ [some P1]) ∧
    ((lookups (cli_service_restart env serviceName).trace).drop 1).length =
      k + 1 ∧
    stdoutWrites (cli_service_restart env serviceName).trace =
      [("%d\n", [.int P])] := by
  obtain ⟨t, ht, hk, hl, hs⟩ := restart_poll_left env serviceName P P1 hne rest k
    [.cli_common_pgsetup_init true,
     .supervisor_find_service_pid serviceName (some P),
     .log LOG_INFO "Sending the TERM signal to service \"%s\" with pid %d"
       [.str serviceName, .int P],
     .kill P SIGTERM 0]
  have h : cli_service_restart env serviceName =
      { outcome := .returned
        trace :=
          ([.cli_common_pgsetup_init true,
            .supervisor_find_service_pid serviceName (some P),
            .log LOG_INFO "Sending the TERM signal to service \"%s\" with pid %d"
              [.str serviceName, .int P],
            .kill P SIGTERM 0] ++ t) ++
          [.log LOG_INFO "Service \"%s\" has been restarted with pid %d"
            [.str serviceName, .int P1],
           .stdout "%d\n" [.int P]] } := by
    unfold cli_service_restart
    simp only [hinit, hlookups, hkill]
    simp only [Bool.true_eq_false, if_false, ne_eq, not_true_eq_false, ht]
  rw [h]
  refine ⟨rfl, ?_, ?_, ?_, ?_⟩
  · simp [kills_append, hk, kills]
  · simp [lookups_append, hl, lookups]
  · simp [lookups_append, hl, lookups]
  · simp [stdoutWrites_append, hs, stdoutWrites]

/-- Witness for C2: service "postgres" with pid 4822, still there at the first
poll, replaced by pid 5001 at the second. -/
theorem cli_service_restart_reports_old_pid_witness :
    (cli_service_restart sampleEnv "postgres").outcome = .returned ∧
    stdoutWrites (cli_service_restart sampleEnv "postgres").trace =
      [("%d\n", [.int 4822])] :=
  have h := cli_service_restart_reports_old_pid sampleEnv "postgres" 4822 5001 1 []
    rfl (by decide) rfl rfl
  ⟨h.1, h.2.2.2.2⟩

/-- C9: with the service locator modelled as the sequence of its answers, and
setup initialisation done: if the initial lookup fails, `cli_service_restart`
calls `kill` not once and exits with `EXIT_CODE_INTERNAL_ERROR`; if the
initial lookup returns `P`, the signal is delivered, the next `k` polling
lookups return `P` and the one after fails, then `cli_service_restart` exits
with `EXIT_CODE_INTERNAL_ERROR` at that lookup, which is the last one it
makes, and writes nothing to standard output. `EXIT_CODE_INTERNAL_ERROR` is a
failure class. -/
theorem cli_service_restart_lookup_failure (env : Env) (serviceName : String)
    (hinit : env.cli_common_pgsetup_init = true) :
    (∀ rest, env.supervisor_find_service_pid = none :: rest →
      (cli_service_restart env serviceName).outcome =
        .exit EXIT_CODE_INTERNAL_ERROR ∧
      kills (cli_service_restart env serviceName).trace = [] ∧
      lookups (cli_service_restart env serviceName).trace = [none] ∧
      stdoutWrites (cli_service_restart env serviceName).trace = []) ∧
    (∀ P k rest,
      env.supervisor_find_service_pid =
        some P :: (List.replicate k (some P) ++ none :: rest) →
      env.kill P SIGTERM = 0 →
      (cli_service_restart env serviceName).outcome =
        .exit EXIT_CODE_INTERNAL_ERROR ∧
      kills (cli_service_restart env serviceName).trace = [(P, SIGTERM)] ∧
      lookups (cli_service_restart env serviceName).trace =
        some P :: (List.replicate k (some P) ++ [none]) ∧
      stdoutWrites (cli_service_restart env serviceName).trace = []) ∧
    ExitCode.isSuccess EXIT_CODE_INTERNAL_ERROR = false := by
  refine ⟨?_, ?_, rfl⟩
  · intro rest hlookups
    have h : cli_service_restart env serviceName =
        { outcome := .exit EXIT_CODE_INTERNAL_ERROR
          trace :=
            [.cli_common_pgsetup_init true,
             .supervisor_find_service_pid serviceName none,
             .log LOG_FATAL "Failed to find pid for service name \"%s\""
               [.str serviceName]] } := by
      unfold cli_service_restart
      simp [hinit, hlookups]
    rw [h]
    exact ⟨rfl, rfl, rfl, rfl⟩
  · intro P k rest hlookups hkill
    obtain ⟨t, ht, hk, hl, hs⟩ := restart_poll_exit env serviceName P rest k
      [.cli_common_pgsetup_init true,
       .supervisor_find_service_pid serviceName (some P),
       .log LOG_INFO "Sending the TERM signal to service \"%s\" with pid %d"
         [.str serviceName, .int P],
       .kill P SIGTERM 0]
    have h : cli_service_restart env serviceName =
        { outcome := .exit EXIT_CODE_INTERNAL_ERROR
          trace :=
            [.cli_common_pgsetup_init true,
             .supervisor_find_service_pid serviceName (some P),
             .log LOG_INFO "Sending the TERM signal to service \"%s\" with pid %d"
               [.str serviceName, .int P],
             .kill P SIGTERM 0] ++ t } := by
      unfold cli_service_restart
      simp only [hinit, hlookups, hkill]
      simp only [Bool.true_eq_false, if_false, ne_eq, not_true_eq_false, ht]
    rw [h]
    refine ⟨rfl, ?_, ?_, ?_⟩
    · simp [kills_append, hk, kills]
    · simp [lookups_append, hl, lookups]
    · simp [stdoutWrites_append, hs, stdoutWrites]

/-- Witness for C9: the registry disappears after one poll that still shows
pid 4822. -/
theorem cli_service_restart_lookup_failure_witness :
    (cli_service_restart
        { sampleEnv with supervisor_find_service_pid := [some 4822, some 4822, none] }
        "postgres").outcome = .exit EXIT_CODE_INTERNAL_ERROR :=
  ((cli_service_restart_lookup_failure
      { sampleEnv with supervisor_find_service_pid := [some 4822, some 4822, none] }
      "postgres" rfl).2.1 4822 1 [] rfl rfl).1

/-! ## The restart all command -/

/-- Cutting a list of characters at its first space: what comes before holds
no space, and the pieces put back around a space give the list. -/
theorem takeWhile_dropWhile_space (l : List Char) (h : ' ' ∈ l) :
    l = l.takeWhile (fun c => c != ' ') ++
        ' ' :: (l.dropWhile (fun c => c != ' ')).drop 1 ∧
    ' ' ∉ l.takeWhile (fun c => c != ' ') := by
  induction l with
  | nil => simp at h
  | cons c t ih =>
    by_cases hc : c = ' '
    · subst hc
      simp [List.takeWhile, List.dropWhile]
    · have hmem : ' ' ∈ t := by
        rcases List.mem_cons.1 h with h1 | h1
        · exact absurd h1.symm hc
        · exact h1
      have hb : (c != ' ') = true := by simpa using hc
      obtain ⟨h1, h2⟩ := ih hmem
      constructor
      · simp only [List.takeWhile, List.dropWhile, hb, List.cons_append]
        rw [← h1]
      · simp only [List.takeWhile, hb, List.mem_cons, not_or]
        exact ⟨fun h3 => hc h3.symm, h2⟩

/-- A line with a space is cut by `splitAtSeparator` at its first space. -/
theorem splitAtSeparator_some (line : String) (h : ' ' ∈ line.data) :
    ∃ pidText serviceName,
      splitAtSeparator line = some (pidText, serviceName) ∧
      line.data = pidText.data ++ ' ' :: serviceName.data ∧
      ' ' ∉ pidText.data := by
  obtain ⟨h1, h2⟩ := takeWhile_dropWhile_space line.data h
  exact ⟨_, _, by simp [splitAtSeparator, h], h1, h2⟩

/-- A line without a space is not cut. -/
theorem splitAtSeparator_none (line : String) (h : ' ' ∉ line.data) :
    splitAtSeparator line = none := by
  simp [splitAtSeparator, h]

/-- The `for` loop never calls `kill`. -/
theorem restart_all_loop_kills (env : Env) (fileLines : List String) :
    ∀ lineNumber, kills (restart_all_loop env lineNumber fileLines) = [] := by
  induction fileLines with
  | nil => intro n; rfl
  | cons line rest ih =>
    intro n
    simp only [restart_all_loop]
    split
    · exact ih _
    · split <;> simp [kills, ih]

/-- The entry the loop reports for a line with pid text and service name. -/
theorem reportedServices_entry (env : Env) (pidText serviceName : String)
    (t : List Event) :
    reportedServices
        (.log LOG_INFO "Restarting service \"%s\" with pid %d"
            [.str serviceName, pidArg env pidText] :: t) =
      (serviceName, env.stringToInt pidText) :: reportedServices t := by
  unfold pidArg
  cases env.stringToInt pidText <;> simp [reportedServices]

/-- From line number 2 on, the loop reports one entry for each line with a
space, in order, and nothing for the other lines. -/
theorem restart_all_loop_data (env : Env) (fileLines : List String) :
    ∀ lineNumber, 2 ≤ lineNumber →
      List.Forall₂
        (fun line (entry : String × Option Int) =>
          ∃ pidText : String,
            line.data = pidText.data ++ ' ' :: entry.1.data ∧
            ' ' ∉ pidText.data ∧
            entry.2 = env.stringToInt pidText)
        (fileLines.filter (fun line => decide (' ' ∈ line.data)))
        (reportedServices (restart_all_loop env lineNumber fileLines)) := by
  induction fileLines with
  | nil => intro n _; simp [restart_all_loop, reportedServices]
  | cons line rest ih =>
    intro n hn
    have hlt : ¬ n < 2 := by omega
    have ih1 := ih (n + 1) (by omega)
    simp only [restart_all_loop, hlt, if_false]
    by_cases hsp : ' ' ∈ line.data
    · obtain ⟨pidText, serviceName, hsplit, hdata, hno⟩ :=
        splitAtSeparator_some line hsp
      rw [hsplit]
      simp only [List.filter_cons, hsp, decide_True, if_true]
      rw [reportedServices_entry]
      exact List.Forall₂.cons ⟨pidText, hdata, hno, rfl⟩ ih1
    · rw [splitAtSeparator_none line hsp]
      simp only [List.filter_cons, hsp, decide_False, Bool.false_eq_true, if_false]
      simpa [reportedServices] using ih1

/-- From line number 2 on, the loop logs at the info level once for each line
with a space, and never writes to standard output. -/
theorem restart_all_loop_info (env : Env) (fileLines : List String) :
    ∀ lineNumber, 2 ≤ lineNumber →
      List.countP (fun entry => decide (entry.1 = LOG_INFO))
          (logs (restart_all_loop env lineNumber fileLines)) =
        (fileLines.filter (fun line => decide (' ' ∈ line.data))).length := by
  induction fileLines with
  | nil => intro n _; simp [restart_all_loop, logs]
  | cons line rest ih =>
    intro n hn
    have hlt : ¬ n < 2 := by omega
    have ih1 := ih (n + 1) (by omega)
    simp only [restart_all_loop, hlt, if_false]
    by_cases hsp : ' ' ∈ line.data
    · obtain ⟨pidText, serviceName, hsplit, _, _⟩ := splitAtSeparator_some line hsp
      rw [hsplit]
      simp [List.filter_cons, hsp, logs, ih1]
    · rw [splitAtSeparator_none line hsp]
      simp [List.filter_cons, hsp, logs, ih1]

/-- From line number 0, the info-level log lines are as many as the data
lines. -/
theorem restart_all_loop_info_spec (env : Env) (fileLines : List String) :
    List.countP (fun entry => decide (entry.1 = LOG_INFO))
        (logs (restart_all_loop env 0 fileLines)) =
      (specDataLines fileLines).length := by
  unfold specDataLines
  match fileLines with
  | [] => simp [restart_all_loop, logs]
  | [l0] => simp [restart_all_loop, logs]
  | l0 :: l1 :: rest =>
    simpa [restart_all_loop] using restart_all_loop_info env rest 2 (le_refl 2)

/-- The `for` loop never writes to standard output. -/
theorem restart_all_loop_stdout (env : Env) (fileLines : List String) :
    ∀ lineNumber, stdoutWrites (restart_all_loop env lineNumber fileLines) = [] := by
  induction fileLines with
  | nil => intro n; rfl
  | cons line rest ih =>
    intro n
    simp only [restart_all_loop]
    split
    · exact ih _
    · split <;> simp [stdoutWrites, ih]

/-- From line number 0, the loop skips the two header lines and then reports
on the data lines. -/
theorem restart_all_loop_spec (env : Env) (fileLines : List String) :
    List.Forall₂
      (fun line (entry : String × Option Int) =>
        ∃ pidText : String,
          line.data = pidText.data ++ ' ' :: entry.1.data ∧
          ' ' ∉ pidText.data ∧
          entry.2 = env.stringToInt pidText)
      (specDataLines fileLines)
      (reportedServices (restart_all_loop env 0 fileLines)) := by
  unfold specDataLines
  match fileLines with
  | [] => simp [restart_all_loop, reportedServices]
  | [l0] => simp [restart_all_loop, reportedServices]
  | l0 :: l1 :: rest =>
    simpa [restart_all_loop] using restart_all_loop_data env rest 2 (le_refl 2)

/-- C3: for a registry read as the list of lines `fileLines` (of any length,
so also of at most `BUFSIZE` lines), `cli_service_restart_all` returns and is
descriptive only: it never calls `kill`, and the service entries it reports
match, one for one and in file order, the lines of index 2 and more that hold
a space, and these entries are all its info-level log lines. Header lines 0
and 1 and lines without a space give no entry, and the lines after them are
still reported; nothing goes to standard output. For each entry, the line is the text
before its first space, a space, and the reported name; the reported pid is
what `stringToInt` reads in the text before the space (unassigned when that
text is no integer). -/
theorem cli_service_restart_all_descriptive (env : Env) (fileContents : String)
    (fileLines : List String)
    (hinit : env.cli_common_pgsetup_init = true)
    (hexists : env.file_exists = true)
    (hread : env.read_file = some fileContents)
    (hsplit : env.splitLines fileContents env.BUFSIZE = fileLines) :
    (cli_service_restart_all env).outcome = .returned ∧
    kills (cli_service_restart_all env).trace = [] ∧
    List.Forall₂
      (fun line (entry : String × Option Int) =>
        ∃ pidText : String,
          line.data = pidText.data ++ ' ' :: entry.1.data ∧
          ' ' ∉ pidText.data ∧
          entry.2 = env.stringToInt pidText)
      (specDataLines fileLines)
      (reportedServices (cli_service_restart_all env).trace) ∧
    List.countP (fun entry => decide (entry.1 = LOG_INFO))
        (logs (cli_service_restart_all env).trace) =
      (specDataLines fileLines).length ∧
    stdoutWrites (cli_service_restart_all env).trace = [] := by
  have h : cli_service_restart_all env =
      { outcome := .returned
        trace :=
          [.cli_common_pgsetup_init true, .file_exists true,
           .read_file (some fileContents)] ++
          restart_all_loop env 0 fileLines } := by
    simp [cli_service_restart_all, hinit, hexists, hread, hsplit]
  rw [h]
  refine ⟨rfl, ?_, ?_, ?_, ?_⟩
  · simp [kills_append, kills, restart_all_loop_kills]
  · simpa [reportedServices] using restart_all_loop_spec env fileLines
  · simpa [logs] using restart_all_loop_info_spec env fileLines
  · simp [stdoutWrites_append, stdoutWrites, restart_all_loop_stdout]

/-- Witness for C3: the registry of the sample environment, whose two data
lines are reported as ("postgres", 4822) and ("listener", 4823). -/
theorem cli_service_restart_all_descriptive_witness :
    (cli_service_restart_all sampleEnv).outcome = .returned ∧
    kills (cli_service_restart_all sampleEnv).trace = [] :=
  have h := cli_service_restart_all_descriptive sampleEnv
    "4821\n99\n4822 postgres\n4823 listener"
    (sampleEnv.splitLines "4821\n99\n4822 postgres\n4823 listener" sampleEnv.BUFSIZE)
    rfl rfl rfl rfl
  ⟨h.1, h.2.1⟩

end PgAutoctl
